import Mathlib

/-!
Fleet Management System — verification of the telemetry/activity core.

Shallow embedding of the core services of the Fleet_Management_System
backend (`app/services/telematics_service.py`, `app/services/activity_service.py`
and the schemas they consume), together with theorems settling the spec
claims about GPS ingestion, vehicle-state monotonicity, activity storage,
compliance summaries and GPS-activity fusion.

Timestamps are modelled as `Int` (UTC instants, totally ordered); Python
floats that are only copied and compared (coordinates, speed, heading,
odometer, distances) are modelled as `ℚ`; Python `int` ids as `Nat`.
The SQLAlchemy session is modelled as an explicit `DB` record threaded
through the operations; raised service exceptions become `Except` errors.
-/

namespace Fleet

/-- Schema `GPSPositionCreate` (`app/schemas/telematics.py`): incoming GPS
position data from telematics devices.  Pydantic bound checks (lat/lon/heading
ranges, non-negative speed/odometer, future-timestamp rejection) happen at the
transport boundary before the service is called and are not re-checked by the
service code modelled here. -/
structure GPSPositionCreate where
  vehicle_id : Nat
  driver_id : Option Nat
  lat : ℚ
  lon : ℚ
  speed : Option ℚ
  heading : Option ℚ
  odometer : Option ℚ
  ignition : Option Bool
  timestamp : Int
  deriving Repr, DecidableEq

/-- Model `GPSPosition` (`app/models/gps_position.py`): the immutable
persisted position row.  `location` is the PostGIS point built from
`WKTElement (f"POINT({lon} {lat})")`, modelled as the pair `(lon, lat)`. -/
structure GPSRecord where
  id : Nat
  vehicle_id : Nat
  driver_id : Option Nat
  timestamp : Int
  location : ℚ × ℚ
  speed : Option ℚ
  heading : Option ℚ
  odometer : Option ℚ
  ignition_status : Bool
  deriving Repr, DecidableEq

/-- Model `Vehicle` (`app/models/vehicle.py`), restricted to the real-time
tracking fields that the telematics service reads and writes (the static CRUD
fields — plate, vin, brand, … — are never touched by the modelled code). -/
structure Vehicle where
  id : Nat
  last_seen : Option Int
  current_position : Option (ℚ × ℚ)
  current_speed : Option ℚ
  current_heading : Option ℚ
  total_odometer : Option ℚ
  deriving Repr, DecidableEq

/-- `ActivityType` enum (`app/models/driver_activity.py`). -/
inductive ActivityType where
  | DRIVING | REST | WORK | AVAILABILITY | BREAK | UNKNOWN
  deriving Repr, DecidableEq

/-- `ActivitySource` enum (`app/models/driver_activity.py`). -/
inductive ActivitySource where
  | TACHOGRAPH | MANUAL | GPS_INFERRED
  deriving Repr, DecidableEq

/-- One entry of the JSON list kept in `DriverActivity.raw_data` by
`fuse_gps_with_activities`: `{"gps_id": ..., "timestamp": ...}`. -/
structure GPSRef where
  gps_id : Nat
  timestamp : Int
  deriving Repr, DecidableEq

/-- Model `DriverActivity` (`app/models/driver_activity.py`).  The `raw_data`
text column holds a JSON list of GPS references (the fuser treats `None` and
`"[]"` alike as the empty list), modelled directly as `List GPSRef`. -/
structure DriverActivity where
  id : Nat
  driver_id : Nat
  vehicle_id : Option Nat
  activity_type : ActivityType
  source : ActivitySource
  start_time : Int
  end_time : Int
  duration_minutes : Int
  odometer_start : Option ℚ
  odometer_end : Option ℚ
  distance_km : Option ℚ
  source_file : Option String
  card_number : Option String
  raw_data : List GPSRef
  deriving Repr, DecidableEq

/-- Schema `ActivityRecord` (`app/schemas/tachograph.py`): one parsed
activity from a tachograph file. -/
structure ActivityRecord where
  activity_type : ActivityType
  start_time : Int
  end_time : Int
  duration_minutes : Int
  odometer_start : Option ℚ
  odometer_end : Option ℚ
  distance_km : Option ℚ
  deriving Repr, DecidableEq

/-- Schema `TachographParseResult` (`app/schemas/tachograph.py`), restricted
to the fields `store_activities_from_tachograph` reads. -/
structure TachographParseResult where
  card_number : Option String
  activities : List ActivityRecord
  deriving Repr, DecidableEq

/-- Schema `DriverActivityCreate` (`app/schemas/tachograph.py`). -/
structure DriverActivityCreate where
  driver_id : Nat
  vehicle_id : Option Nat
  activity_type : ActivityType
  source : ActivitySource
  start_time : Int
  end_time : Int
  duration_minutes : Int
  odometer_start : Option ℚ
  odometer_end : Option ℚ
  distance_km : Option ℚ
  source_file : Option String
  card_number : Option String
  deriving Repr, DecidableEq

/-- The relational store seen through the request-scoped SQLAlchemy session:
vehicle rows, driver ids, the GPS position log and the activity log, plus
primary-key counters for rows the session creates. -/
structure DB where
  vehicles : List Vehicle
  drivers : List Nat
  gps_positions : List GPSRecord
  activities : List DriverActivity
  next_gps_id : Nat
  next_activity_id : Nat
  deriving Repr, DecidableEq

deriving instance DecidableEq for Except

/-- `TelematicsServiceError` (`app/services/telematics_service.py`); the two
raise sites format the messages `f"Vehicle {id} not found"` and
`f"Driver {id} not found"`, i.e. the spec's NotFoundError kind, and both run
before any session mutation. -/
inductive TelematicsServiceError where
  | vehicleNotFound (id : Nat)
  | driverNotFound (id : Nat)
  deriving Repr, DecidableEq

/-- What one `ingest_position` call can raise: the service's own
`TelematicsServiceError`, or the database driver's IntegrityError escaping
the final `flush()`.  The latter is reachable only when the driver id 0 was
given: `if position.driver_id:` is false for 0 (Python truthiness), the
existence check is skipped, the row is added and the vehicle snapshot
updated, and the FK `gps_positions.driver_id → drivers.id` is then violated
at flush — after both session mutations. -/
inductive IngestException where
  | service (e : TelematicsServiceError)
  | integrityError (driver_id : Nat)
  deriving Repr, DecidableEq

/-- One collected entry of `IngestionStats.errors`, modelling the strings
`ingest_batch` appends: `str(e)` of a service error; `"Unexpected error: ..."`
for any other exception — the flush IntegrityError of a falsy-driver item, or
the PendingRollbackError every later session operation hits once that failure
has poisoned the session; and the second loop's
`"Failed to update vehicle ..."`. -/
inductive BatchError where
  | vehicleNotFound (id : Nat)
  | driverNotFound (id : Nat)
  | unexpectedIntegrity (driver_id : Nat)
  | unexpectedPendingRollback
  | failedVehicleUpdate (vehicle_id : Nat)
  deriving Repr, DecidableEq

/-- The `str(e)` rendering of a service error as collected into the errors
list. -/
def BatchError.ofService : TelematicsServiceError → BatchError
  | .vehicleNotFound id => .vehicleNotFound id
  | .driverNotFound id => .driverNotFound id

/-- `IngestionStats` (`app/schemas/telematics.py`); `errors` keeps the
collected error values whose `str(e)` rendering Python stores. -/
structure IngestionStats where
  total_received : Nat
  successfully_processed : Nat
  failed : Nat
  errors : List BatchError
  deriving Repr, DecidableEq

/-- `TelematicsService._get_vehicle`: `SELECT ... WHERE Vehicle.id == vehicle_id`
(`scalar_one_or_none`). -/
def getVehicle (db : DB) (vehicle_id : Nat) : Option Vehicle :=
  db.vehicles.find? (fun v => v.id == vehicle_id)

/-- `TelematicsService._get_driver`, reduced to existence of the driver row. -/
def driverExists (db : DB) (driver_id : Nat) : Bool :=
  db.drivers.contains driver_id

/-- `TelematicsService._update_vehicle_position`: overwrite the vehicle's
snapshot fields only when the position is strictly more recent than a stored
`last_seen` (Python: `if vehicle.last_seen and position.timestamp <=
vehicle.last_seen: return`); `total_odometer` is written only when
`position.odometer` is truthy (present and nonzero). -/
def updateVehiclePosition (v : Vehicle) (p : GPSPositionCreate) : Vehicle :=
  match v.last_seen with
  | some ls =>
      if p.timestamp ≤ ls then v
      else
        { v with
          last_seen := some p.timestamp
          current_position := some (p.lon, p.lat)
          current_speed := p.speed
          current_heading := p.heading
          total_odometer :=
            match p.odometer with
            | some o => if o ≠ 0 then some o else v.total_odometer
            | none => v.total_odometer }
  | none =>
      { v with
        last_seen := some p.timestamp
        current_position := some (p.lon, p.lat)
        current_speed := p.speed
        current_heading := p.heading
        total_odometer :=
          match p.odometer with
          | some o => if o ≠ 0 then some o else v.total_odometer
          | none => v.total_odometer }

/-- Replace the vehicle row with the given id (the ORM mutates the fetched
row in place; ids are unique in the table). -/
def setVehicle (db : DB) (vid : Nat) (f : Vehicle → Vehicle) : DB :=
  { db with vehicles := db.vehicles.map (fun v => if v.id == vid then f v else v) }

/-- The `GPSPosition(...)` row constructed by `ingest_position`
(`ignition_status = position.ignition or False`), with primary key `n`. -/
def mkGPSRecordAt (n : Nat) (p : GPSPositionCreate) : GPSRecord :=
  { id := n
    vehicle_id := p.vehicle_id
    driver_id := p.driver_id
    timestamp := p.timestamp
    location := (p.lon, p.lat)
    speed := p.speed
    heading := p.heading
    odometer := p.odometer
    ignition_status := p.ignition.getD false }

/-- The row `ingest_position` adds to the session, keyed by the store's next
primary key. -/
def mkGPSRecord (db : DB) (p : GPSPositionCreate) : GPSRecord :=
  mkGPSRecordAt db.next_gps_id p

/-- The session mutations of `ingest_position`, in source order: `db.add` of
the `GPSPosition` row, then — when `update_vehicle` — the monotonicity-guarded
snapshot update of the fetched vehicle. -/
def ingestPositionWrite (db : DB) (p : GPSPositionCreate) (update_vehicle : Bool) : DB :=
  let db := { db with
    gps_positions := db.gps_positions ++ [mkGPSRecord db p]
    next_gps_id := db.next_gps_id + 1 }
  if update_vehicle then
    setVehicle db p.vehicle_id (fun v => updateVehiclePosition v p)
  else db

/-- `TelematicsService.ingest_position`: validate the vehicle; then
`if position.driver_id:` — Python truthiness, so the driver-existence check
runs only for a non-`None`, non-zero driver id — persist the row, optionally
update the snapshot, and flush.  A falsy driver id 0 referencing no driver
row skips the check and fails only at the flush with the FK IntegrityError,
after both session mutations: the store returned on that path is the pending
session state at the exception (the surrounding request transaction is rolled
back by the calling framework, and the session is left poisoned). -/
def ingestPosition (db : DB) (p : GPSPositionCreate) (update_vehicle : Bool) :
    DB × Except IngestException GPSRecord :=
  match getVehicle db p.vehicle_id with
  | none => (db, .error (.service (.vehicleNotFound p.vehicle_id)))
  | some _ =>
    match p.driver_id with
    | some did =>
        if did ≠ 0 then
          if driverExists db did then
            (ingestPositionWrite db p update_vehicle, .ok (mkGPSRecord db p))
          else (db, .error (.service (.driverNotFound did)))
        else
          if driverExists db 0 then
            (ingestPositionWrite db p update_vehicle, .ok (mkGPSRecord db p))
          else
            (ingestPositionWrite db p update_vehicle, .error (.integrityError 0))
    | none => (ingestPositionWrite db p update_vehicle, .ok (mkGPSRecord db p))

/-- The `vehicle_latest` dict of `ingest_batch`: keep, per vehicle id, the
position with the greatest timestamp seen so far (strictly greater replaces;
keys in first-insertion order, as Python dicts iterate). -/
def trackLatest (m : List (Nat × GPSPositionCreate)) (p : GPSPositionCreate) :
    List (Nat × GPSPositionCreate) :=
  match m.lookup p.vehicle_id with
  | none => m ++ [(p.vehicle_id, p)]
  | some cur =>
      if p.timestamp > cur.timestamp then
        m.map (fun e => if e.1 == p.vehicle_id then (e.1, p) else e)
      else m

/-- First loop of `ingest_batch`: per position, record it in `vehicle_latest`
(this happens before the fallible ingest inside the same `try`), then ingest
with `update_vehicle=False`; a raised service error is collected and counted.
A flush IntegrityError (falsy driver id 0) is collected as an
`Unexpected error` string and leaves the session poisoned; from then on the
first `db.execute` of every later item raises PendingRollbackError, which the
generic handler also collects — the item is counted failed without the store
being read or written. -/
def ingestBatchLoop (db : DB) (latest : List (Nat × GPSPositionCreate))
    (stats : IngestionStats) (poisoned : Bool) :
    List GPSPositionCreate →
      DB × List (Nat × GPSPositionCreate) × IngestionStats × Bool
  | [] => (db, latest, stats, poisoned)
  | p :: rest =>
      let latest := trackLatest latest p
      if poisoned then
        ingestBatchLoop db latest
          { stats with failed := stats.failed + 1
                       errors := stats.errors ++ [.unexpectedPendingRollback] }
          true rest
      else
        match ingestPosition db p false with
        | (db', .ok _) =>
            ingestBatchLoop db' latest
              { stats with successfully_processed := stats.successfully_processed + 1 }
              false rest
        | (db', .error (.service e)) =>
            ingestBatchLoop db' latest
              { stats with failed := stats.failed + 1
                           errors := stats.errors ++ [BatchError.ofService e] }
              false rest
        | (db', .error (.integrityError did)) =>
            ingestBatchLoop db' latest
              { stats with failed := stats.failed + 1
                           errors := stats.errors ++ [.unexpectedIntegrity did] }
              true rest

/-- Second loop of `ingest_batch`: one snapshot update per vehicle with the
latest tracked position; a vehicle that no longer resolves is silently
skipped (in the model the update itself cannot raise). -/
def applyLatestUpdates (db : DB) : List (Nat × GPSPositionCreate) → DB
  | [] => db
  | (vid, lp) :: rest =>
      match getVehicle db vid with
      | some _ => applyLatestUpdates (setVehicle db vid (fun v => updateVehiclePosition v lp)) rest
      | none => applyLatestUpdates db rest

/-- `TelematicsService.ingest_batch`.  On a healthy session the tracked
latest positions are applied and the final flush succeeds, returning the
statistics.  When an item has poisoned the session, every per-vehicle update
of the second loop fails on the broken session — collected as
`Failed to update vehicle` errors — and the final `flush()` then raises
PendingRollbackError out of `ingest_batch` (`ingestBatchRaises` is true): the
pair produced here on that path is the state the exception leaves behind, not
a normal return of the source. -/
def ingestBatch (db : DB) (positions : List GPSPositionCreate) : DB × IngestionStats :=
  let stats : IngestionStats :=
    { total_received := positions.length
      successfully_processed := 0
      failed := 0
      errors := [] }
  let r := ingestBatchLoop db [] stats false positions
  if r.2.2.2 then
    (r.1, { r.2.2.1 with
      errors := r.2.2.1.errors ++ r.2.1.map (fun e => BatchError.failedVehicleUpdate e.1) })
  else
    (applyLatestUpdates r.1 r.2.1, r.2.2.1)

/-- Whether `ingest_batch` raises out of its final `flush()` instead of
returning statistics: exactly when some item's flush poisoned the session. -/
def ingestBatchRaises (db : DB) (positions : List GPSPositionCreate) : Bool :=
  (ingestBatchLoop db []
    { total_received := positions.length
      successfully_processed := 0
      failed := 0
      errors := [] } false positions).2.2.2

/-- `ActivityServiceError` (`app/services/activity_service.py`).  The overlap
raise in `create_activity` formats the conflicting interval's bounds into the
message (`f"Activity overlaps with existing activity from {existing.start_time}
to {existing.end_time}"`) — the spec's ConflictError kind; the summary path
raises `f"Driver {driver_id} not found"` — the NotFoundError kind. -/
inductive ActivityServiceError where
  | overlapsExisting (conflict_start conflict_end : Int)
  | driverNotFound (id : Nat)
  deriving Repr, DecidableEq

/-- The SQL overlap predicate of `_find_overlapping_activity`:
`driver_id == driver_id AND start_time < end_time AND end_time > start_time`. -/
def activityOverlapsRange (a : DriverActivity) (driver_id : Nat)
    (start_time end_time : Int) : Bool :=
  a.driver_id == driver_id && a.start_time < end_time && a.end_time > start_time

/-- `ActivityService._find_overlapping_activity`: `SELECT ... LIMIT 1`,
`scalar_one_or_none` — the first stored activity of the driver whose interval
overlaps the given range. -/
def findOverlappingActivity (db : DB) (driver_id : Nat)
    (start_time end_time : Int) : Option DriverActivity :=
  db.activities.find? (fun a => activityOverlapsRange a driver_id start_time end_time)

/-- The `DriverActivity(...)` row built inside
`store_activities_from_tachograph` (source fixed to TACHOGRAPH, provenance
from the upload, `raw_data` unset). -/
def mkTachographActivity (db : DB) (driver_id : Nat) (vehicle_id : Option Nat)
    (a : ActivityRecord) (source_file : String) (card_number : Option String) :
    DriverActivity :=
  { id := db.next_activity_id
    driver_id := driver_id
    vehicle_id := vehicle_id
    activity_type := a.activity_type
    source := .TACHOGRAPH
    start_time := a.start_time
    end_time := a.end_time
    duration_minutes := a.duration_minutes
    odometer_start := a.odometer_start
    odometer_end := a.odometer_end
    distance_km := a.distance_km
    source_file := some source_file
    card_number := card_number
    raw_data := [] }

/-- Loop body of `store_activities_from_tachograph`: per parsed record, an
overlap with any stored activity of the driver (exact duplicate or mere
partial overlap — the code distinguishes them only in comments) skips the
record; otherwise the record is added to the session, so later records in the
same call are checked against it too (SQLAlchemy autoflush). -/
def storeTachographLoop (db : DB) (driver_id : Nat) (vehicle_id : Option Nat)
    (source_file : String) (card_number : Option String)
    (created skipped : Nat) :
    List ActivityRecord → DB × Nat × Nat
  | [] => (db, created, skipped)
  | a :: rest =>
      match findOverlappingActivity db driver_id a.start_time a.end_time with
      | some existing =>
          -- exact-duplicate check (`skipped += 1; continue`) and the
          -- partial-overlap fallthrough both skip:
          if existing.start_time == a.start_time && existing.end_time == a.end_time
              && existing.activity_type == a.activity_type then
            storeTachographLoop db driver_id vehicle_id source_file card_number
              created (skipped + 1) rest
          else
            storeTachographLoop db driver_id vehicle_id source_file card_number
              created (skipped + 1) rest
      | none =>
          let newActivity := mkTachographActivity db driver_id vehicle_id a source_file card_number
          let db := { db with
            activities := db.activities ++ [newActivity]
            next_activity_id := db.next_activity_id + 1 }
          storeTachographLoop db driver_id vehicle_id source_file card_number
            (created + 1) skipped rest

/-- `ActivityService.store_activities_from_tachograph`: returns the updated
store and `(created_count, skipped_count)`. -/
def storeActivitiesFromTachograph (db : DB) (driver_id : Nat)
    (parse_result : TachographParseResult) (source_file : String)
    (vehicle_id : Option Nat) : DB × Nat × Nat :=
  storeTachographLoop db driver_id vehicle_id source_file parse_result.card_number
    0 0 parse_result.activities

/-- `ActivityService.create_activity`: overlap check, then
`DriverActivity(**activity_data.model_dump())` persisted; the raise happens
before any session mutation, so on error the store is returned unchanged. -/
def createActivity (db : DB) (activity_data : DriverActivityCreate) :
    DB × Except ActivityServiceError DriverActivity :=
  match findOverlappingActivity db activity_data.driver_id
      activity_data.start_time activity_data.end_time with
  | some existing =>
      (db, .error (.overlapsExisting existing.start_time existing.end_time))
  | none =>
      let activity : DriverActivity :=
        { id := db.next_activity_id
          driver_id := activity_data.driver_id
          vehicle_id := activity_data.vehicle_id
          activity_type := activity_data.activity_type
          source := activity_data.source
          start_time := activity_data.start_time
          end_time := activity_data.end_time
          duration_minutes := activity_data.duration_minutes
          odometer_start := activity_data.odometer_start
          odometer_end := activity_data.odometer_end
          distance_km := activity_data.distance_km
          source_file := activity_data.source_file
          card_number := activity_data.card_number
          raw_data := [] }
      ({ db with
          activities := db.activities ++ [activity]
          next_activity_id := db.next_activity_id + 1 },
       .ok activity)

/-- Insert into a list kept in descending `start_time` order (model of the SQL
`ORDER BY start_time DESC`). -/
def insertByStartDesc (a : DriverActivity) : List DriverActivity → List DriverActivity
  | [] => [a]
  | b :: l =>
      if a.start_time ≤ b.start_time then b :: insertByStartDesc a l
      else a :: b :: l

/-- Sort activities by `start_time`, descending. -/
def sortByStartDesc : List DriverActivity → List DriverActivity
  | [] => []
  | a :: l => insertByStartDesc a (sortByStartDesc l)

/-- `ActivityService.get_driver_activities`: filter by driver, then
`start_time >= start_date` when a start filter is given, `end_time <=
end_date` when an end filter is given, optional type filter, and
`ORDER BY start_time DESC`. -/
def getDriverActivities (db : DB) (driver_id : Nat)
    (start_date end_date : Option Int) (activity_type : Option ActivityType) :
    List DriverActivity :=
  let l := db.activities.filter (fun a =>
    a.driver_id == driver_id
    && (match start_date with | some sd => a.start_time ≥ sd | none => true)
    && (match end_date with | some ed => a.end_time ≤ ed | none => true)
    && (match activity_type with | some ty => a.activity_type == ty | none => true))
  sortByStartDesc l

/-- The violation messages appended by `get_activity_summary`, keeping the
interpolated hours figure:
`f"Exceeded maximum daily driving limit: {h:.1f}h"` and
`f"Extended daily driving: {h:.1f}h (max 2x/week)"`. -/
inductive Violation where
  | exceededDailyMax (hours : ℚ)
  | extendedDailyDriving (hours : ℚ)
  deriving Repr, DecidableEq

/-- `ActivitySummary` (`app/schemas/tachograph.py`). -/
structure ActivitySummary where
  driver_id : Nat
  period_start : Int
  period_end : Int
  total_driving_hours : ℚ
  total_rest_hours : ℚ
  total_work_hours : ℚ
  total_distance_km : ℚ
  violations : List Violation
  deriving Repr, DecidableEq

/-- Sum of `duration_minutes` over the activities of a given type. -/
def sumMinutes (activities : List DriverActivity) (p : ActivityType → Bool) : Int :=
  (activities.filter (fun a => p a.activity_type)).foldl
    (fun acc a => acc + a.duration_minutes) 0

/-- `ActivityService.get_activity_summary`: NotFound when the driver row does
not exist; otherwise aggregate the activities returned by
`get_driver_activities(driver_id, start_date, end_date)` and apply the strict
`> 10` / `elif > 9` violation thresholds to `driving_minutes / 60`. -/
def getActivitySummary (db : DB) (driver_id : Nat)
    (start_date end_date : Int) : Except ActivityServiceError ActivitySummary :=
  if driverExists db driver_id then
    let activities := getDriverActivities db driver_id (some start_date) (some end_date) none
    let driving_minutes := sumMinutes activities (fun t => t == .DRIVING)
    let rest_minutes := sumMinutes activities (fun t => t == .REST || t == .BREAK)
    let work_minutes := sumMinutes activities (fun t => t == .WORK)
    let distance := activities.foldl (fun acc a => acc + (a.distance_km.getD 0)) 0
    let daily_driving_hours : ℚ := (driving_minutes : ℚ) / 60
    let violations : List Violation :=
      if daily_driving_hours > 10 then [.exceededDailyMax daily_driving_hours]
      else if daily_driving_hours > 9 then [.extendedDailyDriving daily_driving_hours]
      else []
    .ok
      { driver_id := driver_id
        period_start := start_date
        period_end := end_date
        total_driving_hours := (driving_minutes : ℚ) / 60
        total_rest_hours := (rest_minutes : ℚ) / 60
        total_work_hours := (work_minutes : ℚ) / 60
        total_distance_km := distance
        violations := violations }
  else .error (.driverNotFound driver_id)

/-- The GPS positions loaded by `fuse_gps_with_activities`: the driver's
positions with `start_time <= timestamp <= end_time` (inclusive on both
ends). -/
def fuseGPSCandidates (db : DB) (driver_id : Nat) (start_time end_time : Int) :
    List GPSRecord :=
  db.gps_positions.filter (fun g =>
    g.driver_id == some driver_id && start_time ≤ g.timestamp && g.timestamp ≤ end_time)

/-- The inner scan of the fuser: the first loaded activity whose
`[start_time, end_time]` bounds contain the position's timestamp
(inclusive on both bounds), after which the scan breaks. -/
def firstContainingActivity (activities : List DriverActivity) (g : GPSRecord) :
    Option DriverActivity :=
  activities.find? (fun a => a.start_time ≤ g.timestamp && g.timestamp ≤ a.end_time)

/-- Append one GPS reference to the `raw_data` JSON list of the stored
activity with the given id. -/
def appendGPSRef (db : DB) (activity_id : Nat) (r : GPSRef) : DB :=
  { db with activities := db.activities.map (fun a =>
      if a.id == activity_id then { a with raw_data := a.raw_data ++ [r] } else a) }

/-- Outer loop of `fuse_gps_with_activities`: per position, attach its
reference to the first containing activity (if any) and count the
association.  The scan list is the activity list as loaded — its bounds and
ids never change during the loop, only `raw_data` grows. -/
def fuseLoop (db : DB) (activities : List DriverActivity) (count : Nat) :
    List GPSRecord → DB × Nat
  | [] => (db, count)
  | g :: rest =>
      match firstContainingActivity activities g with
      | some a =>
          fuseLoop (appendGPSRef db a.id ⟨g.id, g.timestamp⟩) activities (count + 1) rest
      | none => fuseLoop db activities count rest

/-- `ActivityService.fuse_gps_with_activities`: load the driver's activities
via `get_driver_activities(driver_id, start_time, end_time)`, return 0 when
none, else load the GPS candidates and run the association loop; returns the
updated store and the number of associations made. -/
def fuseGPSWithActivities (db : DB) (driver_id : Nat)
    (start_time end_time : Int) : DB × Nat :=
  let activities := getDriverActivities db driver_id (some start_time) (some end_time) none
  if activities.isEmpty then (db, 0)
  else
    let gps := fuseGPSCandidates db driver_id start_time end_time
    fuseLoop db activities 0 gps

/-- Recognizer for the hard daily-driving violation message
(`"Exceeded maximum daily driving limit: ..."`). -/
def Violation.isHard : Violation → Bool
  | .exceededDailyMax _ => true
  | .extendedDailyDriving _ => false

/-- Recognizer for the soft extended-driving warning message
(`"Extended daily driving: ... (max 2x/week)"`). -/
def Violation.isSoft : Violation → Bool
  | .exceededDailyMax _ => false
  | .extendedDailyDriving _ => true

/-! Concrete fixtures used by the witness theorems. -/

/-- A fresh vehicle row with id 1 and no telemetry yet. -/
def vFresh : Vehicle := ⟨1, none, none, none, none, none⟩

/-- A store holding vehicle 1 and driver 7, no positions, no activities. -/
def dbBase : DB := ⟨[vFresh], [7], [], [], 0, 0⟩

/-- A position report for vehicle `vid` and optional driver `d` at instant
`t` with speed `sp`. -/
def mkP (vid : Nat) (d : Option Nat) (t : Int) (sp : ℚ) : GPSPositionCreate :=
  ⟨vid, d, 1, 2, some sp, some 90, some 100, some true, t⟩

/-- Strict interval-overlap test between two stored activities, the spec's
invariant relation: `x.start < y.end AND x.end > y.start`. -/
def overlapsB (x y : DriverActivity) : Bool :=
  decide (x.start_time < y.end_time) && decide (x.end_time > y.start_time)

/-- The stored-activity invariant for driver `d`: no two stored activity
intervals of that driver overlap. -/
def driverNonOverlapping (db : DB) (d : Nat) : Prop :=
  (db.activities.filter (fun a => a.driver_id == d)).Pairwise
    (fun x y => overlapsB x y = false)

/-- A stored DRIVING activity `[0,600)` (id 1) for driver 7. -/
def storedDriving : DriverActivity :=
  ⟨1, 7, none, .DRIVING, .TACHOGRAPH, 0, 600, 10, none, none, some 5, none, none, []⟩

/-- A store holding driver 7 with `storedDriving` as the only activity. -/
def dbOneAct : DB := ⟨[], [7], [], [storedDriving], 0, 2⟩

/-- A WORK create request `[570,650)` for driver 7, overlapping `storedDriving`. -/
def actOverlapping : DriverActivityCreate :=
  ⟨7, none, .WORK, .MANUAL, 570, 650, 80, none, none, none, none, none⟩

/-- A WORK create request `[600,660)` for driver 7, disjoint from `storedDriving`. -/
def actDisjoint : DriverActivityCreate :=
  ⟨7, none, .WORK, .MANUAL, 600, 660, 60, none, none, none, none, none⟩

/-- The summary of `dbBase` for driver 7 over `[0, 100]`: no activities, zero
hours, no violations. -/
def sumBase : ActivitySummary :=
  { driver_id := 7
    period_start := 0
    period_end := 100
    total_driving_hours := 0
    total_rest_hours := 0
    total_work_hours := 0
    total_distance_km := 0
    violations := [] }


/-- A tachograph record identical in type and bounds to `storedDriving`. -/
def recDuplicate : ActivityRecord := ⟨.DRIVING, 0, 600, 10, none, none, some 5⟩

/-- A tachograph record `[600,660)` disjoint from `storedDriving`. -/
def recDisjoint : ActivityRecord := ⟨.WORK, 600, 660, 60, none, none, none⟩

/-- A source-file name for tachograph uploads in the witnesses. -/
def srcFile : String := "card7.ddd"

/-- The identical-record matcher used in the duplicate-idempotence claim. -/
def matchesRecord (d : Nat) (r : ActivityRecord) (a : DriverActivity) : Bool :=
  a.driver_id == d && a.start_time == r.start_time && a.end_time == r.end_time
    && a.activity_type == r.activity_type


/-- The per-item outcome class of one position against a given (healthy)
store: the exception `ingest_position` raises for it — a pre-mutation service
not-found, or, for a falsy unresolved driver id 0, the flush IntegrityError —
or `none` when the item persists cleanly. -/
def ingestError (db : DB) (p : GPSPositionCreate) : Option IngestException :=
  match getVehicle db p.vehicle_id with
  | none => some (.service (.vehicleNotFound p.vehicle_id))
  | some _ =>
    match p.driver_id with
    | some did =>
        if did ≠ 0 then
          if driverExists db did then none
          else some (.service (.driverNotFound did))
        else
          if driverExists db 0 then none
          else some (.integrityError 0)
    | none => none


/-- A 3-entry batch whose second item carries the falsy driver id 0 (vehicle
1 exists, no driver 0 does); items 1 and 3 are individually valid. -/
def batchPoison : List GPSPositionCreate :=
  [mkP 1 (some 7) 10 50, mkP 1 (some 0) 20 60, mkP 1 none 30 70]

/-- A position for the existing vehicle 1 but the non-existent driver 99,
carrying the batch's greatest timestamp for that vehicle. -/
def pBad : GPSPositionCreate :=
  ⟨1, some 99, 3, 4, some 99, some 180, some 777, some false, 20⟩

/-- Driver 7's activity `[0,10]` (id 1), intersecting but not contained in
the window `[5,15]` used by the C6 counterexample. -/
def actNarrow : DriverActivity :=
  ⟨1, 7, none, .DRIVING, .TACHOGRAPH, 0, 10, 10, none, none, none, none, none, []⟩

/-- A stored GPS position of driver 7 at t = 7, inside `actNarrow` and inside
the window `[5,15]`. -/
def gpsAt7 : GPSRecord := ⟨100, 1, some 7, 7, (2, 1), none, none, none, false⟩

/-- Store for the C6 counterexample: one activity `[0,10]` and one position
at t = 7 for driver 7. -/
def dbContained : DB := ⟨[], [7], [gpsAt7], [actNarrow], 101, 10⟩


/-- An activity with its mutable fusion-annotation list cleared — the
projection on which the fuser must act as the identity (every other field,
the interval bounds included, is untouched). -/
def eraseRaw (a : DriverActivity) : DriverActivity := { a with raw_data := [] }

/-- The fusion references the candidate positions contribute to the activity
with id `aid`: one reference per position whose first containing loaded
activity has id `aid`, in candidate order. -/
def fusedRefs (activities : List DriverActivity) (gps : List GPSRecord)
    (aid : Nat) : List GPSRef :=
  (gps.filter (fun g =>
    ((firstContainingActivity activities g).map (fun a => a.id)) == some aid)).map
    (fun g => ⟨g.id, g.timestamp⟩)


/-- Driver 7's DRIVING activity `[0,600]` (id 1), ending at the shared
boundary instant 600. -/
def actEarly : DriverActivity :=
  ⟨1, 7, none, .DRIVING, .TACHOGRAPH, 0, 600, 10, none, none, none, none, none, []⟩

/-- Driver 7's BREAK activity `[600,630]` (id 2), starting at the shared
boundary instant 600. -/
def actLate : DriverActivity :=
  ⟨2, 7, none, .BREAK, .TACHOGRAPH, 600, 630, 30, none, none, none, none, none, []⟩

/-- Driver 7's GPS position exactly at the boundary instant 600. -/
def gpsBoundary : GPSRecord := ⟨100, 1, some 7, 600, (2, 1), none, none, none, false⟩

/-- Store for the C10 witness: the two boundary-sharing activities and the
boundary position. -/
def dbBoundary : DB := ⟨[], [7], [gpsBoundary], [actEarly, actLate], 101, 10⟩


/-- Pointwise growth of `last_seen`: absent may become anything, a stored
instant may only stay or increase, and never becomes absent. -/
def lastSeenLE (a b : Option Int) : Bool :=
  match a, b with
  | none, _ => true
  | some x, some y => decide (x ≤ y)
  | some _, none => false

/-- The vehicle table evolves row-by-row without changing ids and without
decreasing any `last_seen`. -/
def vehiclesGrow : List Vehicle → List Vehicle → Bool
  | [], [] => true
  | v :: l, w :: m =>
      v.id == w.id && lastSeenLE v.last_seen w.last_seen && vehiclesGrow l m
  | _, _ => false

/-- One call into the public ingestion API of the telematics service. -/
inductive TelOp where
  | one (p : GPSPositionCreate) (update_vehicle : Bool)
  | batch (ps : List GPSPositionCreate)
  deriving Repr

/-- The store after one ingestion call. -/
def applyTelOp (db : DB) : TelOp → DB
  | .one p uv => (ingestPosition db p uv).1
  | .batch ps => (ingestBatch db ps).1

/-- The store after a sequence of ingestion calls. -/
def applyTelOps (db : DB) (ops : List TelOp) : DB := ops.foldl applyTelOp db

/-- A vehicle row with id 1 whose snapshot was last written at t = 50. -/
def vSeen : Vehicle := ⟨1, some 50, none, none, none, none⟩

/-- A store holding `vSeen` and driver 7. -/
def dbSeen : DB := ⟨[vSeen], [7], [], [], 5, 0⟩

/-! The remainder of the file states and proves the verification
theorems, with their helper lemmas and concrete witnesses. -/

/-- C8 failing input: vehicle 1 exists, driver id 0 is given and no driver 0
exists.  `if position.driver_id:` is false at 0 (Python truthiness), so the
source skips the driver check, adds the row and updates the vehicle snapshot,
and the failure surfacing from `flush()` is the FK IntegrityError — not the
NotFoundError the claim requires — with both session mutations already
pending, so the state is not unchanged on this error either.  For a missing
vehicle, or a non-zero missing driver id, the claimed clean pre-mutation
NotFoundError does hold (`ingestError` classifies those as service errors). -/
theorem c8_driver_zero_fails_at_flush_not_notfound :
    driverExists dbBase 0 = false ∧
    ingestPosition dbBase (mkP 1 (some 0) 15 50) true =
      (ingestPositionWrite dbBase (mkP 1 (some 0) 15 50) true,
        .error (.integrityError 0)) ∧
    (ingestPositionWrite dbBase (mkP 1 (some 0) 15 50) true).gps_positions =
      [mkGPSRecordAt 0 (mkP 1 (some 0) 15 50)] ∧
    getVehicle (ingestPositionWrite dbBase (mkP 1 (some 0) 15 50) true) 1 =
      some { id := 1, last_seen := some 15, current_position := some (2, 1),
             current_speed := some 50, current_heading := some 90,
             total_odometer := some 100 } := by
  decide

/-- C4: in every successful summary, the hard daily-driving violation is
present iff total driving hours > 10 and the soft extended-limit warning is
present iff 9 < hours ≤ 10; at exactly 9.0 hours no violation is produced and
at exactly 10.0 hours the hard violation is not produced (strict `>` on both
thresholds). -/
theorem c4_violation_thresholds :
    ∀ (db : DB) (d : Nat) (s e : Int) (sum : ActivitySummary),
    getActivitySummary db d s e = .ok sum →
    ((∃ v ∈ sum.violations, v.isHard = true) ↔ sum.total_driving_hours > 10) ∧
    ((∃ v ∈ sum.violations, v.isSoft = true) ↔
      9 < sum.total_driving_hours ∧ sum.total_driving_hours ≤ 10) ∧
    (sum.total_driving_hours = 9 → sum.violations = []) ∧
    (sum.total_driving_hours = 10 → ∀ v ∈ sum.violations, v.isHard = false) := by
  intro db d s e sum h
  unfold getActivitySummary at h
  split at h
  case isFalse => exact absurd h (by simp)
  case isTrue hd =>
    simp only [Except.ok.injEq] at h
    subst h
    set q : ℚ :=
      ((sumMinutes (getDriverActivities db d (some s) (some e) none)
        (fun t => t == .DRIVING) : Int) : ℚ) / 60 with hq
    by_cases h10 : q > 10
    · simp only [if_pos h10]
      refine ⟨?_, ?_, ?_, ?_⟩
      · simp [Violation.isHard, h10]
      · simp only [List.mem_singleton]
        constructor
        · rintro ⟨v, rfl, hv⟩
          simp [Violation.isSoft] at hv
        · rintro ⟨-, hle⟩
          exact absurd h10 (not_lt.mpr hle)
      · intro h9; rw [h9] at h10; norm_num at h10
      · intro heq; rw [heq] at h10; exact absurd h10 (lt_irrefl 10)
    · by_cases h9 : q > 9
      · simp only [if_neg h10, if_pos h9]
        refine ⟨?_, ?_, ?_, ?_⟩
        · constructor
          · rintro ⟨v, hv, hh⟩
            simp only [List.mem_singleton] at hv
            subst hv
            simp [Violation.isHard] at hh
          · intro hgt; exact absurd hgt h10
        · simp only [List.mem_singleton]
          constructor
          · rintro -
            exact ⟨h9, not_lt.mp h10⟩
          · rintro -
            exact ⟨.extendedDailyDriving q, rfl, rfl⟩
        · intro heq; rw [heq] at h9; exact absurd h9 (lt_irrefl 9)
        · intro heq v hv
          simp only [List.mem_singleton] at hv
          subst hv
          rfl
      · simp only [if_neg h10, if_neg h9]
        refine ⟨?_, ?_, ?_, ?_⟩
        · simp only [List.not_mem_nil]
          constructor
          · rintro ⟨v, hv, -⟩; exact absurd hv (by simp)
          · intro hgt
            exact absurd (lt_trans (by norm_num) hgt) h9
        · simp only [List.not_mem_nil]
          constructor
          · rintro ⟨v, hv, -⟩; exact absurd hv (by simp)
          · rintro ⟨hgt, -⟩; exact absurd hgt h9
        · intro _; trivial
        · intro _ v hv; exact absurd hv (by simp)

theorem activityOverlapsRange_iff (a : DriverActivity) (d : Nat) (s e : Int) :
    activityOverlapsRange a d s e = true ↔
    a.driver_id = d ∧ a.start_time < e ∧ a.end_time > s := by
  simp [activityOverlapsRange, Bool.and_assoc]

theorem findOverlappingActivity_eq_none (db : DB) (d : Nat) (s e : Int) :
    findOverlappingActivity db d s e = none ↔
    ∀ ex ∈ db.activities, activityOverlapsRange ex d s e = false := by
  unfold findOverlappingActivity
  rw [List.find?_eq_none]
  constructor
  · intro h ex hm
    exact Bool.not_eq_true _ ▸ h ex hm
  · intro h ex hm
    simp [h ex hm]

theorem findOverlappingActivity_isSome (db : DB) (d : Nat) (s e : Int)
    (ex : DriverActivity) (hm : ex ∈ db.activities)
    (hov : activityOverlapsRange ex d s e = true) :
    ∃ c, findOverlappingActivity db d s e = some c := by
  have : (db.activities.find? (fun a => activityOverlapsRange a d s e)).isSome := by
    rw [List.find?_isSome]
    exact ⟨ex, hm, hov⟩
  exact Option.isSome_iff_exists.mp this

/-- C2: creating an activity that overlaps a stored activity of the same
driver fails with the conflict error carrying the conflicting interval's
bounds and leaves the store unchanged; with no overlapping stored activity
the new activity is persisted and returned; consequently `createActivity`
preserves the per-driver non-overlap invariant. -/
theorem c2_create_conflict_on_overlap :
    (∀ (db : DB) (a : DriverActivityCreate) (ex : DriverActivity),
      ex ∈ db.activities →
      activityOverlapsRange ex a.driver_id a.start_time a.end_time = true →
      (createActivity db a).1 = db ∧
      ∃ conflict ∈ db.activities,
        activityOverlapsRange conflict a.driver_id a.start_time a.end_time = true ∧
        (createActivity db a).2 =
          .error (.overlapsExisting conflict.start_time conflict.end_time)) ∧
    (∀ (db : DB) (a : DriverActivityCreate),
      (∀ ex ∈ db.activities,
        activityOverlapsRange ex a.driver_id a.start_time a.end_time = false) →
      ∃ act,
        (createActivity db a).2 = .ok act ∧
        (createActivity db a).1.activities = db.activities ++ [act] ∧
        act.driver_id = a.driver_id ∧ act.start_time = a.start_time ∧
        act.end_time = a.end_time ∧ act.activity_type = a.activity_type) ∧
    (∀ (db : DB) (a : DriverActivityCreate) (d : Nat),
      driverNonOverlapping db d → driverNonOverlapping (createActivity db a).1 d) := by
  refine ⟨?_, ?_, ?_⟩
  · intro db a ex hm hov
    obtain ⟨c, hc⟩ := findOverlappingActivity_isSome db a.driver_id
      a.start_time a.end_time ex hm hov
    have hc' : db.activities.find?
        (fun x => activityOverlapsRange x a.driver_id a.start_time a.end_time) = some c := hc
    refine ⟨by simp [createActivity, hc], c,
      List.mem_of_find?_eq_some hc', ?_, by simp [createActivity, hc]⟩
    have hp := List.find?_some hc'
    simpa using hp
  · intro db a hnone
    have hfind : findOverlappingActivity db a.driver_id a.start_time a.end_time = none :=
      (findOverlappingActivity_eq_none db a.driver_id a.start_time a.end_time).mpr hnone
    simp only [createActivity, hfind]
    exact ⟨_, rfl, rfl, rfl, rfl, rfl, rfl⟩
  · intro db a d hinv
    unfold driverNonOverlapping at hinv ⊢
    cases hfind : findOverlappingActivity db a.driver_id a.start_time a.end_time with
    | some c => simpa [createActivity, hfind] using hinv
    | none =>
      have hnone := (findOverlappingActivity_eq_none db a.driver_id
        a.start_time a.end_time).mp hfind
      simp only [createActivity, hfind]
      rw [List.filter_append]
      rw [List.pairwise_append]
      refine ⟨hinv, ?_, ?_⟩
      · by_cases hdd : a.driver_id == d <;> simp [hdd]
      · intro x hx y hy
        have hxm := (List.mem_filter.mp hx).1
        have hxd : x.driver_id = d := by
          have := (List.mem_filter.mp hx).2
          simpa using this
        rcases List.mem_filter.mp hy with ⟨hy1, hy2⟩
        have hyd : a.driver_id = d := by
          rcases List.mem_singleton.mp hy1 with rfl
          simpa using hy2
        have hb : ¬ (x.start_time < a.end_time ∧ x.end_time > a.start_time) := by
          rintro ⟨hlt, hgt⟩
          have hov : activityOverlapsRange x a.driver_id a.start_time a.end_time = true :=
            (activityOverlapsRange_iff x a.driver_id a.start_time a.end_time).mpr
              ⟨hxd.trans hyd.symm, hlt, hgt⟩
          rw [hnone x hxm] at hov
          exact Bool.false_ne_true hov
        rcases List.mem_singleton.mp hy1 with rfl
        show (decide (x.start_time < a.end_time) && decide (x.end_time > a.start_time)) = false
        by_cases h1 : x.start_time < a.end_time
        · by_cases h2 : x.end_time > a.start_time
          · exact absurd ⟨h1, h2⟩ hb
          · simp [h2]
        · simp [h1]

/-- Witness for C2 at concrete inputs: with one stored DRIVING activity
`[0,600)` for driver 7, a partially overlapping `[570,650)` WORK create fails
with the conflict naming `0` and `600` and leaves the store unchanged;
creating a disjoint `[600,660)` succeeds; and the invariant is preserved. -/
theorem c2_witness :
    ((createActivity dbOneAct actOverlapping).1 = dbOneAct ∧
      ∃ conflict ∈ dbOneAct.activities,
        activityOverlapsRange conflict actOverlapping.driver_id
          actOverlapping.start_time actOverlapping.end_time = true ∧
        (createActivity dbOneAct actOverlapping).2 =
          .error (.overlapsExisting conflict.start_time conflict.end_time)) ∧
    (∃ act,
      (createActivity dbOneAct actDisjoint).2 = .ok act ∧
      (createActivity dbOneAct actDisjoint).1.activities = dbOneAct.activities ++ [act] ∧
      act.driver_id = actDisjoint.driver_id ∧ act.start_time = actDisjoint.start_time ∧
      act.end_time = actDisjoint.end_time ∧ act.activity_type = actDisjoint.activity_type) ∧
    driverNonOverlapping (createActivity dbOneAct actDisjoint).1 7 :=
  ⟨c2_create_conflict_on_overlap.1 dbOneAct actOverlapping storedDriving
      (by decide) (by decide),
   c2_create_conflict_on_overlap.2.1 dbOneAct actDisjoint (by decide),
   c2_create_conflict_on_overlap.2.2 dbOneAct actDisjoint 7
     (by unfold driverNonOverlapping; decide)⟩

/-- Witness for C4 at a concrete summary: driver 7 of `dbBase` over `[0,100]`
has 0 driving hours and an empty violation list, satisfying both iffs. -/
theorem c4_witness :
    ((∃ v ∈ sumBase.violations, v.isHard = true) ↔ sumBase.total_driving_hours > 10) ∧
    ((∃ v ∈ sumBase.violations, v.isSoft = true) ↔
      9 < sumBase.total_driving_hours ∧ sumBase.total_driving_hours ≤ 10) ∧
    (sumBase.total_driving_hours = 9 → sumBase.violations = []) ∧
    (sumBase.total_driving_hours = 10 → ∀ v ∈ sumBase.violations, v.isHard = false) :=
  c4_violation_thresholds dbBase 7 0 100 sumBase (by
    norm_num [getActivitySummary, driverExists, dbBase, getDriverActivities,
      sumMinutes, sortByStartDesc, sumBase])


theorem storeTachographLoop_counts (d : Nat) (vid : Option Nat) (sf : String)
    (cn : Option String) :
    ∀ (recs : List ActivityRecord) (db : DB) (c s : Nat),
    (storeTachographLoop db d vid sf cn c s recs).2.1 +
      (storeTachographLoop db d vid sf cn c s recs).2.2 = c + s + recs.length := by
  intro recs
  induction recs with
  | nil => intro db c s; simp [storeTachographLoop]
  | cons r rest ih =>
    intro db c s
    rw [storeTachographLoop]
    cases hfind : findOverlappingActivity db d r.start_time r.end_time with
    | some ex =>
      simp only [ite_self]
      have h := ih db c (s + 1)
      simp only [List.length_cons]
      omega
    | none =>
      have h := ih { db with
        activities := db.activities ++ [mkTachographActivity db d vid r sf cn]
        next_activity_id := db.next_activity_id + 1 } (c + 1) s
      simp only [List.length_cons]
      omega

/-- C3: `storeExtracted` returns `(createdCount, skippedCount)` summing to the
number of records; a record that overlaps a stored activity of the driver —
identical duplicate or mere partial overlap alike — is skipped (counted, not
an error, never merged) and nothing is persisted for it, while a
non-overlapping record is persisted; re-submitting a record identical to the
single matching stored activity yields `(created, skipped) = (0, 1)` and
leaves exactly one matching activity stored. -/
theorem c3_store_extracted_skip_and_count :
    (∀ (db : DB) (d : Nat) (pr : TachographParseResult) (sf : String)
        (vid : Option Nat),
      (storeActivitiesFromTachograph db d pr sf vid).2.1 +
        (storeActivitiesFromTachograph db d pr sf vid).2.2 = pr.activities.length) ∧
    (∀ (db : DB) (d : Nat) (vid : Option Nat) (sf : String) (cn : Option String)
        (c s : Nat) (r : ActivityRecord) (rest : List ActivityRecord)
        (ex : DriverActivity),
      ex ∈ db.activities →
      activityOverlapsRange ex d r.start_time r.end_time = true →
      storeTachographLoop db d vid sf cn c s (r :: rest) =
        storeTachographLoop db d vid sf cn c (s + 1) rest) ∧
    (∀ (db : DB) (d : Nat) (vid : Option Nat) (sf : String) (cn : Option String)
        (c s : Nat) (r : ActivityRecord) (rest : List ActivityRecord),
      (∀ ex ∈ db.activities,
        activityOverlapsRange ex d r.start_time r.end_time = false) →
      storeTachographLoop db d vid sf cn c s (r :: rest) =
        storeTachographLoop
          { db with
            activities := db.activities ++ [mkTachographActivity db d vid r sf cn]
            next_activity_id := db.next_activity_id + 1 }
          d vid sf cn (c + 1) s rest) ∧
    (∀ (db : DB) (d : Nat) (r : ActivityRecord) (sf : String) (vid : Option Nat)
        (cn : Option String),
      r.start_time < r.end_time →
      db.activities.countP (matchesRecord d r) = 1 →
      storeActivitiesFromTachograph db d ⟨cn, [r]⟩ sf vid = (db, 0, 1) ∧
      (storeActivitiesFromTachograph db d ⟨cn, [r]⟩ sf vid).1.activities.countP
        (matchesRecord d r) = 1) := by
  refine ⟨?_, ?_, ?_, ?_⟩
  · intro db d pr sf vid
    have h := storeTachographLoop_counts d vid sf pr.card_number pr.activities db 0 0
    simpa [storeActivitiesFromTachograph] using h
  · intro db d vid sf cn c s r rest ex hm hov
    obtain ⟨cflt, hc⟩ :=
      findOverlappingActivity_isSome db d r.start_time r.end_time ex hm hov
    rw [storeTachographLoop, hc]
    simp only [ite_self]
  · intro db d vid sf cn c s r rest hnone
    have hfind : findOverlappingActivity db d r.start_time r.end_time = none :=
      (findOverlappingActivity_eq_none db d r.start_time r.end_time).mpr hnone
    rw [storeTachographLoop, hfind]
  · intro db d r sf vid cn hlt hcount
    obtain ⟨a, ham, hpa⟩ := List.countP_pos_iff.mp (by omega : 0 < db.activities.countP (matchesRecord d r))
    have hpa' := hpa
    unfold matchesRecord at hpa'
    simp only [Bool.and_eq_true, beq_iff_eq] at hpa'
    obtain ⟨⟨⟨had, has⟩, hae⟩, hat⟩ := hpa'
    have hov : activityOverlapsRange a d r.start_time r.end_time = true :=
      (activityOverlapsRange_iff a d r.start_time r.end_time).mpr
        ⟨had, by omega, by omega⟩
    obtain ⟨cflt, hc⟩ :=
      findOverlappingActivity_isSome db d r.start_time r.end_time a ham hov
    have hrun : storeActivitiesFromTachograph db d ⟨cn, [r]⟩ sf vid = (db, 0, 1) := by
      unfold storeActivitiesFromTachograph
      rw [storeTachographLoop, hc]
      simp only [ite_self]
      rfl
    exact ⟨hrun, by rw [hrun]; exact hcount⟩

/-- Witness for C3 at concrete inputs: against `dbOneAct` (driver 7 with the
single stored `[0,600)` DRIVING activity), re-submitting the identical record
skips it with `(0, 1)` and leaves one matching activity; the overlap step
skips without persisting; the disjoint step persists. -/
theorem c3_witness :
    (storeActivitiesFromTachograph dbOneAct 7 ⟨none, [recDuplicate]⟩ srcFile none =
        (dbOneAct, 0, 1) ∧
      (storeActivitiesFromTachograph dbOneAct 7
          ⟨none, [recDuplicate]⟩ srcFile none).1.activities.countP
        (matchesRecord 7 recDuplicate) = 1) ∧
    storeTachographLoop dbOneAct 7 none srcFile none 0 0 [recDuplicate] =
      storeTachographLoop dbOneAct 7 none srcFile none 0 1 [] ∧
    storeTachographLoop dbOneAct 7 none srcFile none 0 0 [recDisjoint] =
      storeTachographLoop
        { dbOneAct with
          activities := dbOneAct.activities ++
            [mkTachographActivity dbOneAct 7 none recDisjoint srcFile none]
          next_activity_id := dbOneAct.next_activity_id + 1 }
        7 none srcFile none 1 0 [] :=
  ⟨c3_store_extracted_skip_and_count.2.2.2 dbOneAct 7 recDuplicate srcFile none none
      (by decide) (by decide),
   c3_store_extracted_skip_and_count.2.1 dbOneAct 7 none srcFile none 0 0
      recDuplicate [] storedDriving (by decide) (by decide),
   c3_store_extracted_skip_and_count.2.2.1 dbOneAct 7 none srcFile none 0 0
      recDisjoint [] (by decide)⟩


/-- C5 failing input: the batch `batchPoison`, whose item 2 carries the falsy
driver id 0 (vehicle 1 exists, no driver 0).  Its flush fails with the FK
IntegrityError — collected as an `Unexpected error` string, not a clean
service error — and poisons the session: item 3, though individually valid
(`ingestError` is `none` for it), then fails with PendingRollbackError
instead of being persisted, every per-vehicle snapshot update fails too, and
`ingest_batch`'s own final flush raises instead of returning — so the batch
yields `successfullyProcessed = 1, failed = 2` with item 3 absent from the
store, not the isolated outcome the claim requires. -/
theorem c5_driver_zero_poisons_batch :
    (ingestBatch dbBase batchPoison).2.successfully_processed = 1 ∧
    (ingestBatch dbBase batchPoison).2.failed = 2 ∧
    (ingestBatch dbBase batchPoison).2.errors =
      [.unexpectedIntegrity 0, .unexpectedPendingRollback, .failedVehicleUpdate 1] ∧
    (ingestError dbBase (mkP 1 none 30 70)).isNone = true ∧
    ((ingestBatch dbBase batchPoison).1.gps_positions.filter
      (fun g => g.timestamp == 30)).length = 0 ∧
    ingestBatchRaises dbBase batchPoison = true := by
  decide

/-- C9: the `vehicle_latest` selection of `ingest_batch` is taken over every
received position before the fallible ingest runs, so in the concrete batch
`[mkP 1 (some 7) 10 50, pBad]` the position `pBad` — vehicle 1 exists, driver
99 does not, greatest timestamp for vehicle 1 — is counted as failed and not
persisted as a `GPSPosition`, yet its timestamp, coordinates, speed, heading
and odometer are applied to vehicle 1's state snapshot. -/
theorem c9_failed_position_updates_snapshot :
    (ingestBatch dbBase [mkP 1 (some 7) 10 50, pBad]).2 =
      { total_received := 2, successfully_processed := 1, failed := 1,
        errors := [.driverNotFound 99] } ∧
    (ingestBatch dbBase [mkP 1 (some 7) 10 50, pBad]).1.gps_positions =
      [mkGPSRecordAt 0 (mkP 1 (some 7) 10 50)] ∧
    getVehicle (ingestBatch dbBase [mkP 1 (some 7) 10 50, pBad]).1 1 =
      some { id := 1, last_seen := some pBad.timestamp,
             current_position := some (pBad.lon, pBad.lat),
             current_speed := pBad.speed, current_heading := pBad.heading,
             total_odometer := pBad.odometer } := by
  decide

/-- C6 counterexample: in `dbContained`, driver 7's activity `[0,10]`
intersects the window `[5,15]` (its start lies before 15 and its end after 5)
and driver 7 has a position at t = 7 inside both the window and the activity,
yet `fuse(7, 5, 15)` loads no activities at all, makes no association and
leaves the store unchanged — so the set of activities considered is not the
set of activities intersecting the window. -/
theorem c6_counterexample :
    (∃ a ∈ dbContained.activities, a.driver_id = 7 ∧
      a.start_time < 15 ∧ a.end_time > 5) ∧
    (∃ g ∈ dbContained.gps_positions, g.driver_id = some 7 ∧
      (5 : Int) ≤ g.timestamp ∧ g.timestamp ≤ 15) ∧
    getDriverActivities dbContained 7 (some 5) (some 15) none = [] ∧
    fuseGPSWithActivities dbContained 7 5 15 = (dbContained, 0) := by
  decide

theorem mem_insertByStartDesc (a b : DriverActivity) (l : List DriverActivity) :
    b ∈ insertByStartDesc a l ↔ b = a ∨ b ∈ l := by
  induction l with
  | nil => simp [insertByStartDesc]
  | cons c rest ih =>
    rw [insertByStartDesc]
    split
    · simp only [List.mem_cons, ih]
      tauto
    · exact List.mem_cons

theorem mem_sortByStartDesc (l : List DriverActivity) (a : DriverActivity) :
    a ∈ sortByStartDesc l ↔ a ∈ l := by
  induction l with
  | nil => simp [sortByStartDesc]
  | cons b rest ih =>
    rw [sortByStartDesc, mem_insertByStartDesc]
    simp [ih]

/-- C6 amended: the activities `fuse` considers are exactly the driver's
activities fully contained in the window — `start ≤ start_time` and
`end_time ≤ end` — not all intersecting ones; the GPS positions considered
are exactly the driver's positions with timestamps in `[start, end]`,
inclusive on both ends. -/
theorem c6_fuse_candidate_sets :
    ∀ (db : DB) (d : Nat) (s e : Int),
    (∀ a, a ∈ getDriverActivities db d (some s) (some e) none ↔
      a ∈ db.activities ∧ a.driver_id = d ∧ s ≤ a.start_time ∧ a.end_time ≤ e) ∧
    (∀ g, g ∈ fuseGPSCandidates db d s e ↔
      g ∈ db.gps_positions ∧ g.driver_id = some d ∧
        s ≤ g.timestamp ∧ g.timestamp ≤ e) := by
  intro db d s e
  constructor
  · intro a
    unfold getDriverActivities
    rw [mem_sortByStartDesc, List.mem_filter]
    simp [and_assoc, ge_iff_le]
  · intro g
    unfold fuseGPSCandidates
    rw [List.mem_filter]
    simp [and_assoc]


theorem map_raw_append_nil (l : List DriverActivity) :
    l.map (fun a => { a with raw_data := a.raw_data ++ [] }) = l := by
  induction l with
  | nil => rfl
  | cons a rest ih => simp [ih]

theorem fusedRefs_nil_acts (gps : List GPSRecord) (aid : Nat) :
    fusedRefs [] gps aid = [] := by
  unfold fusedRefs
  have h : gps.filter (fun g =>
      ((firstContainingActivity [] g).map (fun a => a.id)) == some aid) = [] := by
    apply List.filter_eq_nil_iff.mpr
    intro g hg
    simp [firstContainingActivity]
  rw [h]
  rfl

theorem fuseLoop_activities (acts : List DriverActivity) :
    ∀ (gps : List GPSRecord) (db : DB) (c : Nat),
    (fuseLoop db acts c gps).1.activities =
      db.activities.map (fun a =>
        { a with raw_data := a.raw_data ++ fusedRefs acts gps a.id }) := by
  intro gps
  induction gps with
  | nil =>
    intro db c
    show db.activities =
      db.activities.map (fun a => { a with raw_data := a.raw_data ++ fusedRefs acts [] a.id })
    have h : ∀ aid, fusedRefs acts [] aid = [] := by
      intro aid; rfl
    simp only [h]
    exact (map_raw_append_nil db.activities).symm
  | cons g rest ih =>
    intro db c
    rw [fuseLoop]
    cases hf : firstContainingActivity acts g with
    | none =>
      rw [ih db c]
      apply List.map_congr_left
      intro a _
      have hre : fusedRefs acts (g :: rest) a.id = fusedRefs acts rest a.id := by
        unfold fusedRefs
        rw [List.filter_cons]
        simp [hf]
      rw [hre]
    | some a0 =>
      rw [ih (appendGPSRef db a0.id ⟨g.id, g.timestamp⟩) (c + 1)]
      show (db.activities.map (fun a =>
          if a.id == a0.id then { a with raw_data := a.raw_data ++ [⟨g.id, g.timestamp⟩] }
          else a)).map (fun a => { a with raw_data := a.raw_data ++ fusedRefs acts rest a.id }) = _
      rw [List.map_map]
      apply List.map_congr_left
      intro a _
      simp only [Function.comp_apply]
      by_cases hid : a.id = a0.id
      · have hbeq : (a.id == a0.id) = true := by simp [hid]
        have hre : fusedRefs acts (g :: rest) a.id =
            ⟨g.id, g.timestamp⟩ :: fusedRefs acts rest a.id := by
          unfold fusedRefs
          rw [List.filter_cons]
          have hpred : ((firstContainingActivity acts g).map (fun x => x.id)
              == some a.id) = true := by
            rw [hf]
            show (a0.id == a.id) = true
            exact beq_iff_eq.mpr hid.symm
          rw [hpred]
          simp
        rw [hre]
        simp [hbeq, List.append_assoc]
      · have hbeq : (a.id == a0.id) = false := by simp [hid]
        have hre : fusedRefs acts (g :: rest) a.id = fusedRefs acts rest a.id := by
          unfold fusedRefs
          rw [List.filter_cons]
          have hpred : ((firstContainingActivity acts g).map (fun x => x.id)
              == some a.id) = false := by
            rw [hf]
            show (a0.id == a.id) = false
            exact beq_eq_false_iff_ne.mpr fun h => hid h.symm
          rw [hpred]
          simp
        rw [hre]
        simp [hbeq]

theorem fuseLoop_count (acts : List DriverActivity) :
    ∀ (gps : List GPSRecord) (db : DB) (c : Nat),
    (fuseLoop db acts c gps).2 =
      c + gps.countP (fun g => (firstContainingActivity acts g).isSome) := by
  intro gps
  induction gps with
  | nil => intro db c; simp [fuseLoop]
  | cons g rest ih =>
    intro db c
    rw [fuseLoop]
    cases hf : firstContainingActivity acts g with
    | none =>
      rw [ih db c, List.countP_cons]
      simp [hf]
    | some a0 =>
      rw [ih (appendGPSRef db a0.id ⟨g.id, g.timestamp⟩) (c + 1), List.countP_cons]
      simp [hf]
      omega

theorem fuseLoop_frame (acts : List DriverActivity) :
    ∀ (gps : List GPSRecord) (db : DB) (c : Nat),
    (fuseLoop db acts c gps).1.vehicles = db.vehicles ∧
    (fuseLoop db acts c gps).1.drivers = db.drivers ∧
    (fuseLoop db acts c gps).1.gps_positions = db.gps_positions := by
  intro gps
  induction gps with
  | nil => intro db c; exact ⟨rfl, rfl, rfl⟩
  | cons g rest ih =>
    intro db c
    rw [fuseLoop]
    cases hf : firstContainingActivity acts g with
    | none => exact ih db c
    | some a0 => exact ih (appendGPSRef db a0.id ⟨g.id, g.timestamp⟩) (c + 1)

/-- C7: per fuse invocation, each loaded GPS position contributes its
reference (id and timestamp) to the annotation list of exactly the first
loaded activity whose inclusive `[start_time, end_time]` bounds contain its
timestamp — no other activity receives it, so at most one association per
position — the returned count is the number of positions with a containing
activity, and no activity field other than the annotation list (in
particular, no interval bound) is altered. -/
theorem c7_fuse_first_containing_only :
    ∀ (db : DB) (d : Nat) (s e : Int),
    (fuseGPSWithActivities db d s e).1.activities.map eraseRaw =
      db.activities.map eraseRaw ∧
    (fuseGPSWithActivities db d s e).1.vehicles = db.vehicles ∧
    (fuseGPSWithActivities db d s e).1.gps_positions = db.gps_positions ∧
    (fuseGPSWithActivities db d s e).2 =
      (fuseGPSCandidates db d s e).countP
        (fun g => (firstContainingActivity
          (getDriverActivities db d (some s) (some e) none) g).isSome) ∧
    (fuseGPSWithActivities db d s e).1.activities =
      db.activities.map (fun a =>
        { a with raw_data := a.raw_data ++ fusedRefs (getDriverActivities db d (some s) (some e) none) (fuseGPSCandidates db d s e) a.id }) := by
  intro db d s e
  by_cases hemp : (getDriverActivities db d (some s) (some e) none).isEmpty
  · have hnil : getDriverActivities db d (some s) (some e) none = [] :=
      List.isEmpty_iff.mp hemp
    have hrun : fuseGPSWithActivities db d s e = (db, 0) := by
      unfold fuseGPSWithActivities
      rw [hnil]
      rfl
    rw [hrun, hnil]
    refine ⟨rfl, rfl, rfl, ?_, ?_⟩
    · have h : (fuseGPSCandidates db d s e).countP
          (fun g => (firstContainingActivity [] g).isSome) = 0 := by
        apply List.countP_eq_zero.mpr
        intro g hg
        simp [firstContainingActivity]
      rw [h]
    · simp only [fusedRefs_nil_acts]
      exact (map_raw_append_nil db.activities).symm
  · have hrun : fuseGPSWithActivities db d s e =
        fuseLoop db (getDriverActivities db d (some s) (some e) none) 0
          (fuseGPSCandidates db d s e) := by
      unfold fuseGPSWithActivities
      rw [if_neg (by simpa using hemp)]
    rw [hrun]
    obtain ⟨f1, f2, f3⟩ := fuseLoop_frame
      (getDriverActivities db d (some s) (some e) none)
      (fuseGPSCandidates db d s e) db 0
    refine ⟨?_, f1, f3, ?_, ?_⟩
    · rw [fuseLoop_activities, List.map_map]
      apply List.map_congr_left
      intro a _
      rfl
    · rw [fuseLoop_count]
      omega
    · rw [fuseLoop_activities]


/-- C10: when driver `d`'s stored activities are exactly `a1` and `a2`
sharing the boundary instant `t` — `a1` ends at `t`, `a2` starts at `t`,
`a1` starts earlier — and both lie inside the fuse window together with a
single GPS position of `d` timestamped exactly `t`, the position is attached
to `a2`, the later interval, and not to `a1`: the loaded activities are
sorted by start time descending and containment is inclusive at both bounds,
so `a2` is the first match scanned. -/
theorem c10_boundary_ping_attaches_to_later_activity :
    ∀ (db : DB) (d : Nat) (s e t : Int) (a1 a2 : DriverActivity) (g : GPSRecord),
    db.activities = [a1, a2] →
    a1.driver_id = d → a2.driver_id = d →
    a1.end_time = t → a2.start_time = t →
    a1.start_time < t → t ≤ a2.end_time →
    s ≤ a1.start_time → a1.end_time ≤ e → a2.end_time ≤ e →
    a1.id ≠ a2.id →
    db.gps_positions = [g] →
    g.driver_id = some d → g.timestamp = t →
    (fuseGPSWithActivities db d s e).2 = 1 ∧
    (fuseGPSWithActivities db d s e).1.activities =
      [a1, { a2 with raw_data := a2.raw_data ++ [⟨g.id, t⟩] }] := by
  intro db d s e t a1 a2 g hacts had1 had2 hae1 has2 hlt hle hsa1 hea1 hea2 hne hgps hgd hgt
  have hsa2 : s ≤ a2.start_time := by omega
  have hload : getDriverActivities db d (some s) (some e) none = [a2, a1] := by
    unfold getDriverActivities
    rw [hacts]
    have hf : List.filter (fun a => a.driver_id == d
        && (a.start_time ≥ s) && (a.end_time ≤ e) && true) [a1, a2] = [a1, a2] := by
      simp [had1, had2, hsa1, hsa2, hea1, hea2]
    rw [hf]
    have hstart : a1.start_time ≤ a2.start_time := by omega
    simp [sortByStartDesc, insertByStartDesc, hstart]
  have hcand : fuseGPSCandidates db d s e = [g] := by
    unfold fuseGPSCandidates
    rw [hgps]
    simp [hgd, show s ≤ g.timestamp by omega, show g.timestamp ≤ e by omega]
  have hfirst : firstContainingActivity [a2, a1] g = some a2 := by
    unfold firstContainingActivity
    simp [show a2.start_time ≤ g.timestamp by omega,
      show g.timestamp ≤ a2.end_time by omega]
  have hrun : fuseGPSWithActivities db d s e = fuseLoop db [a2, a1] 0 [g] := by
    unfold fuseGPSWithActivities
    rw [hload, hcand]
    simp
  have hfuse : fuseGPSWithActivities db d s e =
      (appendGPSRef db a2.id ⟨g.id, g.timestamp⟩, 1) := by
    rw [hrun, fuseLoop, hfirst]
    rfl
  constructor
  · rw [hfuse]
  · rw [hfuse]
    unfold appendGPSRef
    rw [hacts]
    have h1 : (a1.id == a2.id) = false := by simp [hne]
    have h2 : (a2.id == a2.id) = true := by simp
    simp [h1, h2, hgt]
    intro h
    exact absurd h hne

/-- Witness for C10 at concrete inputs: in `dbBoundary` the position at the
shared instant 600 is attached to `actLate` (which starts at 600), not to
`actEarly` (which ends there). -/
theorem c10_witness :
    (fuseGPSWithActivities dbBoundary 7 0 1000).2 = 1 ∧
    (fuseGPSWithActivities dbBoundary 7 0 1000).1.activities =
      [actEarly, { actLate with raw_data := actLate.raw_data ++ [⟨100, 600⟩] }] :=
  c10_boundary_ping_attaches_to_later_activity dbBoundary 7 0 1000 600
    actEarly actLate gpsBoundary rfl rfl rfl rfl rfl (by decide) (by decide)
    (by decide) (by decide) (by decide) (by decide) rfl rfl rfl


theorem lastSeenLE_refl (a : Option Int) : lastSeenLE a a = true := by
  cases a <;> simp [lastSeenLE]

theorem lastSeenLE_trans (a b c : Option Int) (h1 : lastSeenLE a b = true)
    (h2 : lastSeenLE b c = true) : lastSeenLE a c = true := by
  cases a <;> cases b <;> cases c <;> (simp_all [lastSeenLE]; try omega)

theorem vehiclesGrow_refl (l : List Vehicle) : vehiclesGrow l l = true := by
  induction l with
  | nil => rfl
  | cons v rest ih => simp [vehiclesGrow, lastSeenLE_refl, ih]

theorem vehiclesGrow_trans : ∀ (l m n : List Vehicle),
    vehiclesGrow l m = true → vehiclesGrow m n = true → vehiclesGrow l n = true := by
  intro l
  induction l with
  | nil =>
    intro m n h1 h2
    cases m <;> cases n <;> simp_all [vehiclesGrow]
  | cons v rest ih =>
    intro m n h1 h2
    cases m with
    | nil => simp [vehiclesGrow] at h1
    | cons w mrest =>
      cases n with
      | nil => simp [vehiclesGrow] at h2
      | cons x nrest =>
        simp only [vehiclesGrow, Bool.and_eq_true, beq_iff_eq] at h1 h2 ⊢
        obtain ⟨⟨hid1, hls1⟩, hg1⟩ := h1
        obtain ⟨⟨hid2, hls2⟩, hg2⟩ := h2
        exact ⟨⟨hid1.trans hid2, lastSeenLE_trans _ _ _ hls1 hls2⟩, ih mrest nrest hg1 hg2⟩

theorem vehiclesGrow_map (g : Vehicle → Vehicle)
    (hid : ∀ v, (g v).id = v.id)
    (hls : ∀ v, lastSeenLE v.last_seen (g v).last_seen = true) :
    ∀ l : List Vehicle, vehiclesGrow l (l.map g) = true := by
  intro l
  induction l with
  | nil => rfl
  | cons v rest ih => simp [vehiclesGrow, hid, hls, ih]

theorem updateVehiclePosition_id (v : Vehicle) (p : GPSPositionCreate) :
    (updateVehiclePosition v p).id = v.id := by
  unfold updateVehiclePosition
  cases h : v.last_seen with
  | none => rfl
  | some ls =>
    by_cases hc : p.timestamp ≤ ls <;> simp [hc]

theorem updateVehiclePosition_lastSeen (v : Vehicle) (p : GPSPositionCreate) :
    lastSeenLE v.last_seen (updateVehiclePosition v p).last_seen = true := by
  unfold updateVehiclePosition
  cases h : v.last_seen with
  | none => simp [lastSeenLE]
  | some ls =>
    by_cases hc : p.timestamp ≤ ls
    · simp [hc, h, lastSeenLE_refl]
    · simp [hc, h, lastSeenLE]
      omega

theorem updateVehiclePosition_stale (v : Vehicle) (p : GPSPositionCreate) (ls : Int)
    (h : v.last_seen = some ls) (hst : p.timestamp ≤ ls) :
    updateVehiclePosition v p = v := by
  unfold updateVehiclePosition
  rw [h]
  simp [hst]

theorem updateVehiclePosition_fresh_lastSeen (v : Vehicle) (p : GPSPositionCreate)
    (h : v.last_seen = none ∨ ∃ ls, v.last_seen = some ls ∧ ls < p.timestamp) :
    (updateVehiclePosition v p).last_seen = some p.timestamp := by
  unfold updateVehiclePosition
  rcases h with h | ⟨ls, h, hlt⟩
  · simp [h]
  · simp only [h]
    rw [if_neg (by omega : ¬ p.timestamp ≤ ls)]

theorem setVehicle_update_grow (db : DB) (vid : Nat) (p : GPSPositionCreate) :
    vehiclesGrow db.vehicles
      (setVehicle db vid (fun v => updateVehiclePosition v p)).vehicles = true := by
  unfold setVehicle
  apply vehiclesGrow_map
  · intro v
    by_cases h : v.id == vid <;> simp [h, updateVehiclePosition_id]
  · intro v
    by_cases h : v.id == vid <;> simp [h, updateVehiclePosition_lastSeen, lastSeenLE_refl]

theorem ingestPosition_true_ok (db : DB) (p : GPSPositionCreate) (v : Vehicle)
    (hv : getVehicle db p.vehicle_id = some v)
    (hdrv : p.driver_id = none ∨
      ∃ did, p.driver_id = some did ∧ driverExists db did = true) :
    ingestPosition db p true =
      ({ db with
          vehicles := db.vehicles.map (fun w =>
            if w.id == p.vehicle_id then updateVehiclePosition w p else w)
          gps_positions := db.gps_positions ++ [mkGPSRecord db p]
          next_gps_id := db.next_gps_id + 1 }, .ok (mkGPSRecord db p)) := by
  have hwrite : ingestPositionWrite db p true =
      { db with
        vehicles := db.vehicles.map (fun w =>
          if w.id == p.vehicle_id then updateVehiclePosition w p else w)
        gps_positions := db.gps_positions ++ [mkGPSRecord db p]
        next_gps_id := db.next_gps_id + 1 } := rfl
  unfold ingestPosition
  cases hdd : p.driver_id with
  | none =>
    simp only [hv]
    rw [hwrite]
  | some did =>
    rcases hdrv with hd | ⟨did2, hd, hex⟩
    · rw [hd] at hdd
      cases hdd
    · rw [hd] at hdd
      injection hdd with hdd
      subst hdd
      simp only [hv]
      by_cases h0 : did2 ≠ 0
      · rw [if_pos h0, if_pos hex, hwrite]
      · have h0eq : did2 = 0 := not_not.mp h0
        subst h0eq
        rw [if_neg h0, if_pos hex, hwrite]

theorem ingestPositionWrite_grow (db : DB) (p : GPSPositionCreate) (uv : Bool) :
    vehiclesGrow db.vehicles (ingestPositionWrite db p uv).vehicles = true := by
  unfold ingestPositionWrite
  cases uv with
  | true => exact setVehicle_update_grow _ p.vehicle_id p
  | false => exact vehiclesGrow_refl db.vehicles

theorem ingestPosition_grow (db : DB) (p : GPSPositionCreate) (uv : Bool) :
    vehiclesGrow db.vehicles (ingestPosition db p uv).1.vehicles = true := by
  unfold ingestPosition
  cases hv : getVehicle db p.vehicle_id with
  | none => exact vehiclesGrow_refl db.vehicles
  | some v =>
    cases hd : p.driver_id with
    | none => exact ingestPositionWrite_grow db p uv
    | some did =>
      simp only []
      by_cases h0 : did ≠ 0
      · rw [if_pos h0]
        by_cases hex : driverExists db did
        · rw [if_pos hex]
          exact ingestPositionWrite_grow db p uv
        · rw [if_neg hex]
          exact vehiclesGrow_refl db.vehicles
      · rw [if_neg h0]
        by_cases hex : driverExists db 0
        · rw [if_pos hex]
          exact ingestPositionWrite_grow db p uv
        · rw [if_neg hex]
          exact ingestPositionWrite_grow db p uv

theorem ingestPosition_false_vehicles (db : DB) (p : GPSPositionCreate) :
    (ingestPosition db p false).1.vehicles = db.vehicles := by
  have hw : (ingestPositionWrite db p false).vehicles = db.vehicles := rfl
  unfold ingestPosition
  cases hv : getVehicle db p.vehicle_id with
  | none => rfl
  | some v =>
    cases hd : p.driver_id with
    | none => exact hw
    | some did =>
      simp only []
      by_cases h0 : did ≠ 0
      · rw [if_pos h0]
        by_cases hex : driverExists db did
        · rw [if_pos hex]
          exact hw
        · rw [if_neg hex]
      · rw [if_neg h0]
        by_cases hex : driverExists db 0
        · rw [if_pos hex]
          exact hw
        · rw [if_neg hex]
          exact hw

theorem applyLatestUpdates_grow :
    ∀ (l : List (Nat × GPSPositionCreate)) (db : DB),
    vehiclesGrow db.vehicles (applyLatestUpdates db l).vehicles = true := by
  intro l
  induction l with
  | nil => intro db; exact vehiclesGrow_refl db.vehicles
  | cons e rest ih =>
    intro db
    obtain ⟨vid, lp⟩ := e
    rw [applyLatestUpdates]
    cases hv : getVehicle db vid with
    | some v =>
      exact vehiclesGrow_trans _ _ _ (setVehicle_update_grow db vid lp)
        (ih (setVehicle db vid (fun w => updateVehiclePosition w lp)))
    | none => exact ih db

theorem ingestBatchLoop_vehicles :
    ∀ (ps : List GPSPositionCreate) (db : DB)
      (latest : List (Nat × GPSPositionCreate)) (stats : IngestionStats) (b : Bool),
    (ingestBatchLoop db latest stats b ps).1.vehicles = db.vehicles := by
  intro ps
  induction ps with
  | nil => intro db latest stats b; rfl
  | cons p rest ih =>
    intro db latest stats b
    rw [ingestBatchLoop]
    cases b with
    | true =>
      simp only [if_true, ite_true]
      exact ih db (trackLatest latest p) _ true
    | false =>
      simp only [if_false, Bool.false_eq_true, ite_false]
      rcases hpr : ingestPosition db p false with ⟨db2, res⟩
      have hveh : db2.vehicles = db.vehicles := by
        have h := ingestPosition_false_vehicles db p
        rw [hpr] at h
        exact h
      cases res with
      | ok r =>
        rw [ih]
        exact hveh
      | error e =>
        cases e with
        | service e2 =>
          rw [ih]
          exact hveh
        | integrityError did =>
          rw [ih]
          exact hveh

theorem ingestBatch_grow (db : DB) (ps : List GPSPositionCreate) :
    vehiclesGrow db.vehicles (ingestBatch db ps).1.vehicles = true := by
  unfold ingestBatch
  simp only []
  by_cases hp : (ingestBatchLoop db []
      { total_received := ps.length, successfully_processed := 0, failed := 0,
        errors := [] } false ps).2.2.2
  · rw [if_pos hp]
    rw [ingestBatchLoop_vehicles]
    exact vehiclesGrow_refl db.vehicles
  · rw [if_neg hp]
    have h := applyLatestUpdates_grow
      (ingestBatchLoop db []
        { total_received := ps.length, successfully_processed := 0, failed := 0,
          errors := [] } false ps).2.1
      (ingestBatchLoop db []
        { total_received := ps.length, successfully_processed := 0, failed := 0,
          errors := [] } false ps).1
    rw [ingestBatchLoop_vehicles] at h
    exact h

theorem applyTelOp_grow (db : DB) (op : TelOp) :
    vehiclesGrow db.vehicles (applyTelOp db op).vehicles = true := by
  cases op with
  | one p uv => exact ingestPosition_grow db p uv
  | batch ps => exact ingestBatch_grow db ps

theorem applyTelOps_grow :
    ∀ (ops : List TelOp) (db : DB),
    vehiclesGrow db.vehicles (applyTelOps db ops).vehicles = true := by
  intro ops
  induction ops with
  | nil => intro db; exact vehiclesGrow_refl db.vehicles
  | cons op rest ih =>
    intro db
    exact vehiclesGrow_trans _ _ _ (applyTelOp_grow db op) (ih (applyTelOp db op))


theorem getVehicle_eq_of_mem (db : DB) (vid : Nat) (v w : Vehicle)
    (hnodup : (db.vehicles.map Vehicle.id).Nodup)
    (hv : getVehicle db vid = some v) (hw : w ∈ db.vehicles) (hwid : w.id = vid) :
    w = v := by
  have hv' : db.vehicles.find? (fun x => x.id == vid) = some v := hv
  have hvm : v ∈ db.vehicles := List.mem_of_find?_eq_some hv'
  have hvid : v.id = vid := by simpa using List.find?_some hv'
  exact List.inj_on_of_nodup_map hnodup hw hvm (by rw [hwid, hvid])

theorem ingestPosition_stale (db : DB) (p : GPSPositionCreate) (v : Vehicle) (ls : Int)
    (hnodup : (db.vehicles.map Vehicle.id).Nodup)
    (hv : getVehicle db p.vehicle_id = some v)
    (hls : v.last_seen = some ls) (hstale : p.timestamp ≤ ls)
    (hdrv : p.driver_id = none ∨
      ∃ did, p.driver_id = some did ∧ driverExists db did = true) :
    ingestPosition db p true =
      ({ db with
          gps_positions := db.gps_positions ++ [mkGPSRecord db p]
          next_gps_id := db.next_gps_id + 1 }, .ok (mkGPSRecord db p)) := by
  rw [ingestPosition_true_ok db p v hv hdrv]
  have hptw : ∀ w ∈ db.vehicles,
      (if w.id == p.vehicle_id then updateVehiclePosition w p else w) = w := by
    intro w hw
    by_cases hid : (w.id == p.vehicle_id) = true
    · rw [if_pos hid]
      have hweq : w = v :=
        getVehicle_eq_of_mem db p.vehicle_id v w hnodup hv hw (by simpa using hid)
      rw [hweq]
      exact updateVehiclePosition_stale v p ls hls hstale
    · rw [if_neg hid]
  have hmap : db.vehicles.map (fun w =>
      if w.id == p.vehicle_id then updateVehiclePosition w p else w) = db.vehicles := by
    calc db.vehicles.map (fun w =>
          if w.id == p.vehicle_id then updateVehiclePosition w p else w)
        = db.vehicles.map (fun w => w) := List.map_congr_left hptw
      _ = db.vehicles := List.map_id db.vehicles
  rw [hmap]

theorem find?_map_update (vid : Nat) (p : GPSPositionCreate) :
    ∀ (l : List Vehicle) (v : Vehicle),
    l.find? (fun w => w.id == vid) = some v →
    (l.map (fun w => if w.id == vid then updateVehiclePosition w p else w)).find?
      (fun w => w.id == vid) = some (updateVehiclePosition v p) := by
  intro l
  induction l with
  | nil => intro v h; simp at h
  | cons w rest ih =>
    intro v h
    rw [List.find?_cons] at h
    by_cases hid : (w.id == vid) = true
    · rw [hid] at h
      have h2 : some w = some v := h
      injection h2 with h2
      subst h2
      rw [List.map_cons, if_pos hid, List.find?_cons]
      have hupd : ((updateVehiclePosition w p).id == vid) = true := by
        rw [updateVehiclePosition_id]
        exact hid
      rw [hupd]
    · have hid2 : (w.id == vid) = false := by simpa using hid
      rw [hid2] at h
      rw [List.map_cons, if_neg hid, List.find?_cons, hid2]
      exact ih v h

theorem map_update_ids (vid : Nat) (p : GPSPositionCreate) (l : List Vehicle) :
    (l.map (fun w => if w.id == vid then updateVehiclePosition w p else w)).map
      Vehicle.id = l.map Vehicle.id := by
  rw [List.map_map]
  apply List.map_congr_left
  intro w _
  by_cases hid : (w.id == vid) = true
  · simp [show w.id = vid from by simpa using hid, updateVehiclePosition_id]
  · simp [show ¬ w.id = vid from by simpa using hid]

/-- C1: `last_seen` is monotonically non-decreasing for every vehicle under
every sequence of `ingestOne`/`ingestBatch` calls; a single ingest whose
timestamp does not exceed the stored `last_seen` persists the position but
leaves the whole vehicle table — every `VehicleState` field — unchanged; and
submitting timestamps T1 < T2 in order T2 then T1 persists both positions and
leaves `last_seen` equal to T2. -/
theorem c1_last_seen_monotonic :
    (∀ (db : DB) (ops : List TelOp),
      vehiclesGrow db.vehicles (applyTelOps db ops).vehicles = true) ∧
    (∀ (db : DB) (p : GPSPositionCreate) (v : Vehicle) (ls : Int),
      (db.vehicles.map Vehicle.id).Nodup →
      getVehicle db p.vehicle_id = some v →
      v.last_seen = some ls → p.timestamp ≤ ls →
      (p.driver_id = none ∨
        ∃ did, p.driver_id = some did ∧ driverExists db did = true) →
      ingestPosition db p true =
        ({ db with
            gps_positions := db.gps_positions ++ [mkGPSRecord db p]
            next_gps_id := db.next_gps_id + 1 }, .ok (mkGPSRecord db p))) ∧
    (∀ (db : DB) (p1 p2 : GPSPositionCreate) (v : Vehicle),
      (db.vehicles.map Vehicle.id).Nodup →
      p1.vehicle_id = p2.vehicle_id →
      getVehicle db p2.vehicle_id = some v →
      (v.last_seen = none ∨ ∃ ls, v.last_seen = some ls ∧ ls < p2.timestamp) →
      p1.timestamp < p2.timestamp →
      (p1.driver_id = none ∨
        ∃ did, p1.driver_id = some did ∧ driverExists db did = true) →
      (p2.driver_id = none ∨
        ∃ did, p2.driver_id = some did ∧ driverExists db did = true) →
      (∃ v2, getVehicle
          (ingestPosition (ingestPosition db p2 true).1 p1 true).1 p2.vehicle_id =
            some v2 ∧ v2.last_seen = some p2.timestamp) ∧
      (ingestPosition (ingestPosition db p2 true).1 p1 true).1.gps_positions =
        db.gps_positions ++
          [mkGPSRecord db p2, mkGPSRecordAt (db.next_gps_id + 1) p1]) := by
  refine ⟨?_, ?_, ?_⟩
  · intro db ops
    exact applyTelOps_grow ops db
  · intro db p v ls hnodup hv hls hstale hdrv
    exact ingestPosition_stale db p v ls hnodup hv hls hstale hdrv
  · intro db p1 p2 v hnodup hvid hv hfresh hlt hd1 hd2
    have hstep2 := ingestPosition_true_ok db p2 v hv hd2
    have hfind1 : getVehicle (ingestPosition db p2 true).1 p2.vehicle_id =
        some (updateVehiclePosition v p2) := by
      rw [hstep2]
      show (db.vehicles.map (fun w =>
          if w.id == p2.vehicle_id then updateVehiclePosition w p2 else w)).find?
        (fun w => w.id == p2.vehicle_id) = some (updateVehiclePosition v p2)
      exact find?_map_update p2.vehicle_id p2 db.vehicles v hv
    have hls1 : (updateVehiclePosition v p2).last_seen = some p2.timestamp :=
      updateVehiclePosition_fresh_lastSeen v p2 hfresh
    have hnodup1 : ((ingestPosition db p2 true).1.vehicles.map Vehicle.id).Nodup := by
      rw [hstep2]
      show ((db.vehicles.map (fun w =>
          if w.id == p2.vehicle_id then updateVehiclePosition w p2 else w)).map
        Vehicle.id).Nodup
      rw [map_update_ids]
      exact hnodup
    have hd1' : p1.driver_id = none ∨ ∃ did, p1.driver_id = some did ∧
        driverExists (ingestPosition db p2 true).1 did = true := by
      rcases hd1 with h | ⟨did, h1, h2⟩
      · exact .inl h
      · refine .inr ⟨did, h1, ?_⟩
        rw [hstep2]
        exact h2
    have hv1 : getVehicle (ingestPosition db p2 true).1 p1.vehicle_id =
        some (updateVehiclePosition v p2) := by
      rw [hvid]
      exact hfind1
    have hstale := ingestPosition_stale (ingestPosition db p2 true).1 p1
      (updateVehiclePosition v p2) p2.timestamp hnodup1 hv1 hls1 (le_of_lt hlt) hd1'
    constructor
    · refine ⟨updateVehiclePosition v p2, ?_, hls1⟩
      rw [hstale]
      exact hfind1
    · rw [hstale]
      show (ingestPosition db p2 true).1.gps_positions ++
          [mkGPSRecord (ingestPosition db p2 true).1 p1] = _
      rw [hstep2]
      show (db.gps_positions ++ [mkGPSRecord db p2]) ++
          [mkGPSRecordAt (db.next_gps_id + 1) p1] = _
      rw [List.append_assoc]
      rfl

/-- Witness for C1 at concrete inputs: a one-call sequence grows `dbBase`;
a stale ingest (t = 40 against stored `last_seen` 50) on `dbSeen` leaves the
vehicle table unchanged while persisting the position; ingesting t = 20 then
t = 10 on `dbBase` leaves `last_seen` at 20 with both positions stored. -/
theorem c1_witness :
    (vehiclesGrow dbBase.vehicles
      (applyTelOps dbBase [TelOp.one (mkP 1 none 20 50) true]).vehicles = true) ∧
    (ingestPosition dbSeen (mkP 1 none 40 60) true =
      ({ dbSeen with
          gps_positions := dbSeen.gps_positions ++ [mkGPSRecord dbSeen (mkP 1 none 40 60)]
          next_gps_id := dbSeen.next_gps_id + 1 },
        .ok (mkGPSRecord dbSeen (mkP 1 none 40 60)))) ∧
    ((∃ v2, getVehicle (ingestPosition
          (ingestPosition dbBase (mkP 1 none 20 50) true).1
          (mkP 1 none 10 60) true).1 (mkP 1 none 20 50).vehicle_id = some v2 ∧
        v2.last_seen = some (mkP 1 none 20 50).timestamp) ∧
      (ingestPosition (ingestPosition dbBase (mkP 1 none 20 50) true).1
          (mkP 1 none 10 60) true).1.gps_positions =
        dbBase.gps_positions ++
          [mkGPSRecord dbBase (mkP 1 none 20 50),
            mkGPSRecordAt (dbBase.next_gps_id + 1) (mkP 1 none 10 60)]) :=
  ⟨c1_last_seen_monotonic.1 dbBase [TelOp.one (mkP 1 none 20 50) true],
   c1_last_seen_monotonic.2.1 dbSeen (mkP 1 none 40 60) vSeen 50
     (by decide) (by decide) rfl (by decide) (.inl rfl),
   c1_last_seen_monotonic.2.2 dbBase (mkP 1 none 10 60) (mkP 1 none 20 50) vFresh
     (by decide) rfl (by decide) (.inl rfl) (by decide) (.inl rfl) (.inl rfl)⟩

end Fleet
